import Mathlib

/-! # Sessions controller: password reset, role toggle and logout

A shallow embedding of `src/controllers/sessions.controller.js`.

* JavaScript regular expressions are embedded as a small syntax tree with a
  backtracking matcher over the unread suffix of the input; the two regex
  literals of the controller are transcribed node by node.
* Objects with string-valued properties (`req.body`, user records, token
  payloads) are property lists; reading an absent property gives `none`
  (JavaScript `undefined`).
* The collaborators the controller imports (token utility, users service,
  mailing service, password utility, DTO) are parameters of every handler; each
  call to one of them, each logger call and each response helper call is
  recorded, in program order, in the list of effects of the run.
-/

namespace SessionsController

/-! ## Regular expressions -/

/-- One item inside a bracketed character class. -/
inductive ClassItem where
  /-- A literal character, as `@` in `[^\s@]`. -/
  | single (c : Char)
  /-- A range, as `a-z`. -/
  | range (lo hi : Char)
  /-- The escape `\d`: without the `u` and `v` flags exactly `0-9`. -/
  | digit
  /-- The escape `\s`: white space and line terminators. -/
  | space

/-- The code points ECMAScript calls LineTerminator: LF, CR, LS, PS. -/
def isLineTerminator (c : Char) : Bool :=
  c == '\n' || c == '\r' || c == '\u2028' || c == '\u2029'

/-- The code points matched by `\s`: TAB, VT, FF, ZWNBSP, the space separators
(category Zs) and the line terminators. -/
def isWhiteSpace (c : Char) : Bool :=
  c.toNat == 0x09 || c.toNat == 0x0B || c.toNat == 0x0C || c.toNat == 0xFEFF ||
  c.toNat == 0x20 || c.toNat == 0xA0 || c.toNat == 0x1680 ||
  (decide (0x2000 ≤ c.toNat) && decide (c.toNat ≤ 0x200A)) ||
  c.toNat == 0x202F || c.toNat == 0x205F || c.toNat == 0x3000 ||
  isLineTerminator c

/-- Whether a character belongs to a class item. -/
def ClassItem.mem (c : Char) : ClassItem → Bool
  | .single d => c == d
  | .range lo hi => decide (lo ≤ c) && decide (c ≤ hi)
  | .digit => decide ('0' ≤ c) && decide (c ≤ '9')
  | .space => isWhiteSpace c

/-- The regular-expression fragment used by the controller (no flags). -/
inductive Regex where
  /-- The assertion `^`: start of input. -/
  | bol
  /-- The assertion `$`: end of input. -/
  | eol
  /-- The atom `.`: any character but a line terminator. -/
  | dot
  /-- A literal character (also an escaped one, as `\.`). -/
  | chr (c : Char)
  /-- A character class `[...]`, negated (`[^...]`) when `neg` is true. -/
  | set (neg : Bool) (items : List ClassItem)
  /-- Concatenation. -/
  | seq (a b : Regex)
  /-- Greedy `a*`. -/
  | star (a : Regex)
  /-- Greedy `a+`. -/
  | plus (a : Regex)
  /-- Greedy `a{k,}`. -/
  | atLeast (k : Nat) (a : Regex)
  /-- Positive lookahead `(?=a)`. -/
  | lookahead (a : Regex)

/-- Iterations of a starred body: each iteration must consume input (an empty
iteration is rejected, as in RepeatMatcher), the greedy choice comes first.
The fuel bounds the number of iterations by the length of the unread input. -/
def iterate (step : List Char → List (List Char)) : Nat → List Char → List (List Char)
  | 0, rest => [rest]
  | fuel + 1, rest =>
      ((step rest).filter (fun r => decide (r.length < rest.length))).flatMap (iterate step fuel)
        ++ [rest]

/-- Exactly `k` iterations of a body. -/
def repeatN (step : List Char → List (List Char)) : Nat → List Char → List (List Char)
  | 0, rest => [rest]
  | k + 1, rest => (step rest).flatMap (repeatN step k)

/-- All ways of matching a regex at the position whose unread input is `rest`,
in backtracking order; each result is the input left unread after the match.
`n` is the length of the whole input, so position 0 is `rest.length = n`. -/
def Regex.run (n : Nat) : Regex → List Char → List (List Char)
  | .bol, rest => if rest.length = n then [rest] else []
  | .eol, rest => if rest.isEmpty then [rest] else []
  | .dot, rest =>
      match rest with
      | [] => []
      | c :: cs => if isLineTerminator c then [] else [cs]
  | .chr d, rest =>
      match rest with
      | [] => []
      | c :: cs => if c = d then [cs] else []
  | .set neg items, rest =>
      match rest with
      | [] => []
      | c :: cs => if (items.any (fun i => i.mem c)) != neg then [cs] else []
  | .seq a b, rest => (a.run n rest).flatMap (fun r => b.run n r)
  | .star a, rest => iterate (fun r => a.run n r) rest.length rest
  | .plus a, rest =>
      (a.run n rest).flatMap (fun r => iterate (fun r => a.run n r) r.length r)
  | .atLeast k a, rest =>
      (repeatN (fun r => a.run n r) k rest).flatMap
        (fun r => iterate (fun r => a.run n r) r.length r)
  | .lookahead a, rest => if (a.run n rest).isEmpty then [] else [rest]

/-- Whether the regex matches starting at the current position or at a later one. -/
def Regex.testFrom (re : Regex) (n : Nat) : List Char → Bool
  | [] => !(re.run n []).isEmpty
  | c :: cs => !(re.run n (c :: cs)).isEmpty || Regex.testFrom re n cs

/-- The method `RegExp.prototype.test` on a string, for a regex without flags:
a match is searched from every start position, first to last. The input is
read character by character; JavaScript reads UTF-16 code units, which differs
only on characters outside the Basic Multilingual Plane, and neither regex of
the controller has a class or escape that tells the two readings apart (a
surrogate is no white space, no line terminator, and in no range used). -/
def Regex.test (re : Regex) (s : String) : Bool :=
  re.testFrom s.data.length s.data

/-- The literal of line 37: `/^[^\s@]+@[^\s@]+\.[^\s@]+$/`. -/
def emailRegex : Regex :=
  .seq .bol
    (.seq (.plus (.set true [.space, .single '@']))
      (.seq (.chr '@')
        (.seq (.plus (.set true [.space, .single '@']))
          (.seq (.chr '.')
            (.seq (.plus (.set true [.space, .single '@'])) .eol)))))

/-- The class `[A-Za-z\d@$!%*?&]` of the password regex. -/
def passwordClass : List ClassItem :=
  [.range 'A' 'Z', .range 'a' 'z', .digit, .single '@', .single '$', .single '!',
    .single '%', .single '*', .single '?', .single '&']

/-- The class `[@$!%*?&]` of the fourth lookahead. -/
def specialClass : List ClassItem :=
  [.single '@', .single '$', .single '!', .single '%', .single '*', .single '?', .single '&']

/-- The literal of line 65:
`/^(?=.*[a-z])(?=.*[A-Z])(?=.*\d)(?=.*[@$!%*?&])[A-Za-z\d@$!%*?&]{8,}$/`. -/
def passwordRegex : Regex :=
  .seq .bol
    (.seq (.lookahead (.seq (.star .dot) (.set false [.range 'a' 'z'])))
      (.seq (.lookahead (.seq (.star .dot) (.set false [.range 'A' 'Z'])))
        (.seq (.lookahead (.seq (.star .dot) (.set false [.digit])))
          (.seq (.lookahead (.seq (.star .dot) (.set false specialClass)))
            (.seq (.atLeast 8 (.set false passwordClass)) .eol)))))

/-! ## Spec-side reading of the password rule -/

/-- A lower-case letter a-z. -/
def IsLowerLetter (c : Char) : Prop := 'a' ≤ c ∧ c ≤ 'z'

/-- An upper-case letter A-Z. -/
def IsUpperLetter (c : Char) : Prop := 'A' ≤ c ∧ c ≤ 'Z'

/-- A digit 0-9. -/
def IsDigitChar (c : Char) : Prop := '0' ≤ c ∧ c ≤ '9'

/-- One of the special characters `@$!%*?&`. -/
def IsSpecialChar (c : Char) : Prop := c ∈ ['@', '$', '!', '%', '*', '?', '&']

/-- The password rule in the words of the specification: at least 8 characters,
at least one lower-case letter, one upper-case letter, one digit and one
special character, and no character outside those four kinds. -/
def MeetsComplexity (p : String) : Prop :=
  8 ≤ p.length ∧
  (∃ c ∈ p.data, IsLowerLetter c) ∧
  (∃ c ∈ p.data, IsUpperLetter c) ∧
  (∃ c ∈ p.data, IsDigitChar c) ∧
  (∃ c ∈ p.data, IsSpecialChar c) ∧
  ∀ c ∈ p.data, IsLowerLetter c ∨ IsUpperLetter c ∨ IsDigitChar c ∨ IsSpecialChar c

/-- A matcher step that reads one character satisfying `p`. -/
def charStep (p : Char → Bool) : List Char → List (List Char)
  | [] => []
  | c :: cs => if p c then [cs] else []

/-! ## Objects, collaborators and effects -/

/-- Read a property of a property list; `none` is JavaScript `undefined`. -/
def getProp : List (String × String) → String → Option String
  | [], _ => none
  | (k, v) :: t, key => if k = key then some v else getProp t key

/-- Assign a property: an existing property is overwritten in place, a new one
is added at the end. -/
def setProp : List (String × String) → String → String → List (String × String)
  | [], key, val => [(key, val)]
  | (k, v) :: t, key, val => if k = key then (k, val) :: t else (k, v) :: setProp t key val

/-- An object whose properties hold strings: `req.body`, `req.params`, a user
record, a token payload. -/
structure Record where
  /-- The properties, in insertion order. -/
  props : List (String × String)
  deriving DecidableEq, Repr

/-- The expression `r.key` (or `r[key]`). -/
def Record.get (r : Record) (key : String) : Option String := getProp r.props key

/-- The statement `r.key = val`. -/
def Record.set (r : Record) (key val : String) : Record := ⟨setProp r.props key val⟩

/-- A value interpolated in a template literal: `undefined` prints as such. -/
def interp : Option String → String
  | some s => s
  | none => "undefined"

/-- Results of fallible collaborators can be compared. -/
instance decEqExcept {ε α : Type} [DecidableEq ε] [DecidableEq α] : DecidableEq (Except ε α)
  | .ok a, .ok b =>
      if h : a = b then isTrue (congrArg Except.ok h)
      else isFalse (fun e => h (Except.ok.inj e))
  | .error a, .error b =>
      if h : a = b then isTrue (congrArg Except.error h)
      else isFalse (fun e => h (Except.error.inj e))
  | .ok _, .error _ => isFalse (fun e => Except.noConfusion e)
  | .error _, .ok _ => isFalse (fun e => Except.noConfusion e)

/-- The request as the handlers read it. The logger lives under `req.logger`;
the request has no property `loger`. -/
structure Request where
  /-- The parsed body `req.body`. -/
  body : Record
  /-- The route parameters `req.params`. -/
  params : Record
  /-- The authenticated user `req.user`, when upstream middleware set one. -/
  user : Option Record
  /-- The cookies the client sent (`req.signedCookies`). -/
  signedCookies : Record

/-- The imported collaborators. A service that the specification says may raise
returns `Except`, the error being the message of the exception. -/
structure Services where
  /-- The export `generateToken` of `utils/tokens.utils.js`. -/
  generateToken : Record → String
  /-- The export `validateToken`: a payload, or `none` (null) for an invalid token. -/
  validateToken : Option String → Except String (Option Record)
  /-- The method `UsersServices.getInstance().getUserByEmail`. -/
  getUserByEmail : Option String → Except String (Option Record)
  /-- The method `UsersServices.getInstance().getUserById`. -/
  getUserById : Option String → Except String (Option Record)
  /-- The method `UsersServices.getInstance().updateUser`. -/
  updateUser : Option String → Record → Except String Unit
  /-- The method `UsersServices.getInstance().updateUserPassword`. -/
  updateUserPassword : Option String → Record → Except String Unit
  /-- The method `MailingServices.getInstance().sendResetPasswordEmail`. -/
  sendResetPasswordEmail : Record → String → Except String Unit
  /-- The export `isValidPassword` of `utils/passwords.utils.js`. -/
  isValidPassword : String → Record → Except String Bool
  /-- The constructor `UserWithoutPasswordDTO`, spread into a plain object. -/
  userWithoutPasswordDTO : Record → Record
  /-- The setting `config.cookieMaxAge`. -/
  cookieMaxAge : Nat

/-- One observable step of a handler, in program order. -/
inductive Effect where
  | loggerInfo (msg : String)
  | loggerWarning (msg : String)
  | loggerError (msg : String)
  | generateToken (payload : Record)
  | validateToken (token : Option String)
  | getUserByEmail (email : Option String)
  | getUserById (uid : Option String)
  | updateUser (uid : Option String) (user : Record)
  | updateUserPassword (id : Option String) (user : Record)
  | sendResetPasswordEmail (user : Record) (link : String)
  | isValidPassword (password : String) (user : Record)
  | setReqUser (user : Record)
  | cookie (name value : String) (maxAge : Nat) (httpOnly signed : Bool)
  | clearCookie (name : String)
  | sendSuccessMessage (msg : String)
  | sendUserError (msg : String)
  | sendServerError (msg : String)
  deriving DecidableEq, Repr

/-- An exception of the JavaScript runtime. -/
inductive JsError where
  /-- A property read on `undefined` or `null`. -/
  | typeError (what : String)
  /-- A name that is not in scope. -/
  | referenceError (name : String)
  deriving DecidableEq, Repr

/-- How a handler ends: it returns (its promise fulfils), or it throws (its
promise rejects). -/
inductive Outcome where
  | completed
  | threw (e : JsError)
  deriving DecidableEq, Repr

/-- A run of a handler: what it did, and how it ended. -/
structure Run where
  effects : List Effect
  outcome : Outcome
  deriving DecidableEq, Repr

/-- The records a run handed to `updateUser`, with the id they were stored under. -/
def Run.persisted (r : Run) : List (Option String × Record) :=
  r.effects.filterMap (fun e =>
    match e with
    | .updateUser uid user => some (uid, user)
    | _ => none)

/-- Whether an effect is a call to an imported collaborator. -/
def Effect.isCall : Effect → Bool
  | .generateToken _ => true
  | .validateToken _ => true
  | .getUserByEmail _ => true
  | .getUserById _ => true
  | .updateUser _ _ => true
  | .updateUserPassword _ _ => true
  | .sendResetPasswordEmail _ _ => true
  | .isValidPassword _ _ => true
  | _ => false

/-- Whether an effect is a response sent through an envelope helper of `res`. -/
def Effect.isResponse : Effect → Bool
  | .sendSuccessMessage _ => true
  | .sendUserError _ => true
  | .sendServerError _ => true
  | _ => false

/-- Whether an effect sets a cookie. -/
def Effect.isCookieSet : Effect → Bool
  | .cookie _ _ _ _ _ => true
  | _ => false

/-- The mails a run asked the mailing service to send: recipient and link. -/
def Run.mailsSent (r : Run) : List (Record × String) :=
  r.effects.filterMap (fun e =>
    match e with
    | .sendResetPasswordEmail user link => some (user, link)
    | _ => none)

/-- The records a run handed to `updateUserPassword`, with the id passed along. -/
def Run.passwordUpdates (r : Run) : List (Option String × Record) :=
  r.effects.filterMap (fun e =>
    match e with
    | .updateUserPassword id user => some (id, user)
    | _ => none)

/-- The collaborator calls of a run, in order. -/
def Run.calls (r : Run) : List Effect := r.effects.filter Effect.isCall

/-- The responses of a run, in order. -/
def Run.responses (r : Run) : List Effect := r.effects.filter Effect.isResponse

/-! ## The handlers -/

/-- The `try` block of `restorePassword` (lines 32-51): the effects up to the
point where it returned or raised, and the message of what it raised. -/
def restorePasswordTry (sv : Services) (req : Request) : List Effect × Except String Unit :=
  match req.body.get "email" with
  | none =>
      ([.loggerWarning "El campo correo electrónico es obligatorio",
        .sendUserError "El campo correo electrónico es obligatorio"], .ok ())
  | some email =>
    if email = "" then
      ([.loggerWarning "El campo correo electrónico es obligatorio",
        .sendUserError "El campo correo electrónico es obligatorio"], .ok ())
    else if emailRegex.test email = false then
      ([.loggerWarning "El correo electrónico ingresado no es válido",
        .sendUserError "El correo electrónico ingresado no es válido"], .ok ())
    else
      match sv.getUserByEmail (some email) with
      | .error m => ([.getUserByEmail (some email)], .error m)
      | .ok none =>
          ([.getUserByEmail (some email),
            .loggerWarning
              ("No existe un usuario registrado con el correo electrónico " ++ email),
            .sendUserError
              ("No existe un usuario registrado con el correo electrónico " ++ email)], .ok ())
      | .ok (some user) =>
        let token := sv.generateToken ⟨[("email", email)]⟩
        let resetLink := "http://localhost:8080/reset-password?token=" ++ token
        match sv.sendResetPasswordEmail user resetLink with
        | .error m =>
            ([.getUserByEmail (some email), .generateToken ⟨[("email", email)]⟩,
              .sendResetPasswordEmail user resetLink], .error m)
        | .ok () =>
            ([.getUserByEmail (some email), .generateToken ⟨[("email", email)]⟩,
              .sendResetPasswordEmail user resetLink,
              .loggerInfo ("Correo electrónico enviado exitosamente a " ++
                interp (user.get "email") ++
                " con las instrucciones para restaurar contraseña"),
              .sendSuccessMessage ("Se ha enviado un correo electrónico a " ++
                interp (user.get "email") ++
                " con las instrucciones para restaurar tu contraseña")], .ok ())

/-- The handler `restorePassword` (lines 30-56). Its `catch` clause starts with
`req.loger.error(...)`: `req.loger` is `undefined`, so reading `.error` throws a
TypeError before the arguments are evaluated and before line 54 is reached. -/
def restorePassword (sv : Services) (req : Request) : Run :=
  match restorePasswordTry sv req with
  | (effects, .ok ()) => ⟨effects, .completed⟩
  | (effects, .error _) => ⟨effects, .threw (.typeError "req.loger is undefined")⟩

/-- The `try` block of `resetPassword` (lines 60-91). -/
def resetPasswordTry (sv : Services) (req : Request) : List Effect × Except String Unit :=
  let token := req.body.get "token"
  match req.body.get "password" with
  | none =>
      ([.loggerWarning "El campo contraseña es obligatorio",
        .sendUserError "El campo contraseña es obligatorio"], .ok ())
  | some password =>
    if password = "" then
      ([.loggerWarning "El campo contraseña es obligatorio",
        .sendUserError "El campo contraseña es obligatorio"], .ok ())
    else if passwordRegex.test password = false then
      ([.loggerWarning "La contraseña debe tener al menos 8 caracteres, una letra mayúscula, una letra minúscula, un número y un caracter especial",
        .sendUserError "La contraseña debe tener al menos 8 caracteres, una letra mayúscula, una letra minúscula, un número y un caracter especial"],
        .ok ())
    else
      match sv.validateToken token with
      | .error m => ([.validateToken token], .error m)
      | .ok none =>
          ([.validateToken token,
            .loggerWarning "No se ha proporcionado un token válido",
            .sendUserError "No se ha proporcionado un token válido"], .ok ())
      | .ok (some decoded) =>
        match sv.getUserByEmail (decoded.get "email") with
        | .error m =>
            ([.validateToken token, .getUserByEmail (decoded.get "email")], .error m)
        | .ok none =>
            ([.validateToken token, .getUserByEmail (decoded.get "email"),
              .loggerWarning "No se ha encontrado un usuario asociado al token proporcionado",
              .sendUserError "No se ha encontrado un usuario asociado al token proporcionado"],
              .ok ())
        | .ok (some user) =>
          match sv.isValidPassword password user with
          | .error m =>
              ([.validateToken token, .getUserByEmail (decoded.get "email"),
                .isValidPassword password user], .error m)
          | .ok true =>
              ([.validateToken token, .getUserByEmail (decoded.get "email"),
                .isValidPassword password user,
                .loggerWarning "La nueva contraseña no puede ser igual a la anterior",
                .sendUserError "La nueva contraseña no puede ser igual a la anterior"], .ok ())
          | .ok false =>
            let updated := user.set "password" password
            match sv.updateUserPassword (updated.get "_id") updated with
            | .error m =>
                ([.validateToken token, .getUserByEmail (decoded.get "email"),
                  .isValidPassword password user,
                  .updateUserPassword (updated.get "_id") updated], .error m)
            | .ok () =>
                ([.validateToken token, .getUserByEmail (decoded.get "email"),
                  .isValidPassword password user,
                  .updateUserPassword (updated.get "_id") updated,
                  .loggerInfo ("Contraseña de usuario " ++ interp (updated.get "email") ++
                    " reestablecida exitosamente"),
                  .sendSuccessMessage "Contraseña reestablecida exitosamente"], .ok ())

/-- The handler `resetPassword` (lines 58-96). Its `catch` clause evaluates
`decoded.email` inside the argument of `req.logger.error`; `decoded` is a
`const` of the `try` block and not in scope there, so a ReferenceError is
thrown before the logger is called and before line 94 is reached. -/
def resetPassword (sv : Services) (req : Request) : Run :=
  match resetPasswordTry sv req with
  | (effects, .ok ()) => ⟨effects, .completed⟩
  | (effects, .error _) => ⟨effects, .threw (.referenceError "decoded")⟩

/-- The `try` block of `changeUserRole` (lines 100-113). -/
def changeUserRoleTry (sv : Services) (req : Request) : List Effect × Except String Unit :=
  let uid := req.params.get "uid"
  match sv.getUserById uid with
  | .error m => ([.getUserById uid], .error m)
  | .ok none => ([.getUserById uid], .error "Cannot read properties of null (reading role)")
  | .ok (some user) =>
    let updated := user.set "role" (if user.get "role" = some "user" then "premium" else "user")
    match sv.updateUser uid updated with
    | .error m => ([.getUserById uid, .updateUser uid updated], .error m)
    | .ok () =>
      let reqUser := sv.userWithoutPasswordDTO updated
      let token := sv.generateToken reqUser
      ([.getUserById uid, .updateUser uid updated, .setReqUser reqUser, .generateToken reqUser,
        .cookie "token" token sv.cookieMaxAge true true,
        .loggerInfo ("Rol de usuario " ++ interp (updated.get "email") ++
          " modificado exitosamente a " ++ interp (updated.get "role")),
        .sendSuccessMessage ("Rol de usuario " ++ interp (updated.get "email") ++
          " modificado exitosamente a " ++ interp (updated.get "role"))], .ok ())

/-- The handler `changeUserRole` (lines 98-118). Its `catch` clause reads
`user.email`, and `user` is a `const` of the `try` block: a ReferenceError. -/
def changeUserRole (sv : Services) (req : Request) : Run :=
  match changeUserRoleTry sv req with
  | (effects, .ok ()) => ⟨effects, .completed⟩
  | (effects, .error _) => ⟨effects, .threw (.referenceError "user")⟩

/-- The handler `logout` (lines 124-128): not asynchronous, no `try`. The
template literal of line 126 reads `req.user.email`. -/
def logout (req : Request) : Run :=
  match req.user with
  | none => ⟨[.clearCookie "token"], .threw (.typeError "req.user is undefined")⟩
  | some user =>
      ⟨[.clearCookie "token",
        .loggerInfo ("Sesión de usuario " ++ interp (user.get "email") ++ " cerrada exitosamente"),
        .sendSuccessMessage "Sesión cerrada exitosamente"], .completed⟩

/-! ## Sample collaborators and requests -/

/-- A stored user whose password is not the one being submitted. -/
def sampleUser : Record :=
  ⟨[("_id", "u1"), ("email", "ana@shop.com"), ("password", "hash-of-old"), ("role", "user"),
    ("cart", "c1")]⟩

/-- Collaborators over a store holding one user: a token is the email it
encodes (anything that is not an email is an invalid token), a stored password
is the plaintext behind `hash-of-`, and nothing raises. -/
def storeOf (stored : Record) : Services where
  generateToken := fun payload => interp (payload.get "email")
  validateToken := fun token =>
    match token with
    | none => .ok none
    | some t => if emailRegex.test t then .ok (some ⟨[("email", t)]⟩) else .ok none
  getUserByEmail := fun email => if email = stored.get "email" then .ok (some stored) else .ok none
  getUserById := fun uid => if uid = stored.get "_id" then .ok (some stored) else .ok none
  updateUser := fun _ _ => .ok ()
  updateUserPassword := fun _ _ => .ok ()
  sendResetPasswordEmail := fun _ _ => .ok ()
  isValidPassword := fun password user =>
    .ok (user.get "password" == some ("hash-of-" ++ password))
  userWithoutPasswordDTO := fun user => ⟨user.props.filter (fun kv => kv.1 != "password")⟩
  cookieMaxAge := 86400000

/-- The collaborators over a store holding `sampleUser`. -/
def sampleServices : Services := storeOf sampleUser

/-- The same collaborators with a users service whose transport is down: every
method of it raises. -/
def failingStore : Services :=
  { sampleServices with
    getUserByEmail := fun _ => .error "connection refused"
    getUserById := fun _ => .error "connection refused"
    updateUser := fun _ _ => .error "connection refused"
    updateUserPassword := fun _ _ => .error "connection refused" }

/-- The same collaborators with a store that reads but refuses writes. -/
def readOnlyStore : Services :=
  { sampleServices with
    updateUser := fun _ _ => .error "write failed"
    updateUserPassword := fun _ _ => .error "write failed" }

/-- A request carrying only a body. -/
def bodyRequest (props : List (String × String)) : Request :=
  ⟨⟨props⟩, ⟨[]⟩, none, ⟨[]⟩⟩

/-! ## The matcher on single-character bodies -/

theorem run_dot_eq (n : Nat) :
    (fun r => Regex.run n .dot r) = charStep (fun c => !isLineTerminator c) := by
  funext r
  cases r with
  | nil => simp [Regex.run, charStep]
  | cons c cs => by_cases h : isLineTerminator c <;> simp [Regex.run, charStep, h]

theorem run_set_eq (n : Nat) (items : List ClassItem) :
    (fun r => Regex.run n (.set false items) r) = charStep (fun c => items.any (fun i => i.mem c)) := by
  funext r
  cases r with
  | nil => simp [Regex.run, charStep]
  | cons c cs => simp [Regex.run, charStep]

theorem mem_charStep (p : Char → Bool) (r rest : List Char) :
    r ∈ charStep p rest ↔ ∃ c, rest = c :: r ∧ p c = true := by
  cases rest with
  | nil => simp [charStep]
  | cons c cs =>
    simp only [charStep]
    split
    · rename_i h
      constructor
      · intro hr
        have hrc := List.mem_singleton.mp hr
        subst hrc
        exact ⟨c, rfl, h⟩
      · rintro ⟨d, hd, -⟩
        cases hd
        exact List.mem_singleton.mpr rfl
    · rename_i h
      constructor
      · intro hr
        simp at hr
      · rintro ⟨d, hd, hpd⟩
        cases hd
        exact absurd hpd h

theorem nil_split (p : Char → Bool) (r : List Char) :
    r = [] ↔ ∃ pre : List Char, [] = pre ++ r ∧ ∀ c ∈ pre, p c = true := by
  constructor
  · rintro rfl
    exact ⟨[], rfl, by simp⟩
  · rintro ⟨pre, hpre, -⟩
    simp at hpre
    exact hpre.2

theorem mem_iterate_charStep (p : Char → Bool) (r : List Char) :
    ∀ (fuel : Nat) (rest : List Char), rest.length ≤ fuel →
      (r ∈ iterate (charStep p) fuel rest ↔ ∃ pre, rest = pre ++ r ∧ ∀ c ∈ pre, p c = true) := by
  intro fuel
  induction fuel with
  | zero =>
    intro rest h
    have : rest = [] := List.length_eq_zero.mp (Nat.le_zero.mp h)
    subst this
    simp only [iterate, List.mem_singleton]
    exact nil_split p r
  | succ fuel ih =>
    intro rest h
    cases rest with
    | nil =>
      simp only [iterate, charStep, List.filter_nil, List.flatMap_nil, List.nil_append,
        List.mem_singleton]
      exact nil_split p r
    | cons c cs =>
      have hcs : cs.length ≤ fuel := by simpa using h
      by_cases hp : p c = true
      · have hstep : iterate (charStep p) (fuel + 1) (c :: cs)
            = iterate (charStep p) fuel cs ++ [c :: cs] := by
          simp [iterate, charStep, hp]
        rw [hstep, List.mem_append, List.mem_singleton, ih cs hcs]
        constructor
        · rintro (⟨pre, rfl, hpre⟩ | rfl)
          · refine ⟨c :: pre, rfl, ?_⟩
            intro x hx
            rcases List.mem_cons.mp hx with rfl | hx
            · exact hp
            · exact hpre x hx
          · exact ⟨[], rfl, by simp⟩
        · rintro ⟨pre, hpre, hall⟩
          cases pre with
          | nil => right; simpa using hpre.symm
          | cons x xs =>
            left
            simp only [List.cons_append, List.cons.injEq] at hpre
            exact ⟨xs, hpre.2, fun y hy => hall y (List.mem_cons_of_mem _ hy)⟩
      · have hstep : iterate (charStep p) (fuel + 1) (c :: cs) = [c :: cs] := by
          simp [iterate, charStep, hp]
        rw [hstep, List.mem_singleton]
        constructor
        · rintro rfl; exact ⟨[], rfl, by simp⟩
        · rintro ⟨pre, hpre, hall⟩
          cases pre with
          | nil => simpa using hpre.symm
          | cons x xs =>
            simp only [List.cons_append, List.cons.injEq] at hpre
            exact absurd (hpre.1 ▸ hall x (List.mem_cons_self _ _)) hp

theorem mem_repeatN_charStep (p : Char → Bool) (r : List Char) :
    ∀ (k : Nat) (rest : List Char),
      (r ∈ repeatN (charStep p) k rest ↔
        ∃ pre, pre.length = k ∧ rest = pre ++ r ∧ ∀ c ∈ pre, p c = true) := by
  intro k
  induction k with
  | zero =>
    intro rest
    simp only [repeatN, List.mem_singleton]
    constructor
    · rintro rfl; exact ⟨[], rfl, rfl, by simp⟩
    · rintro ⟨pre, h0, h1, -⟩
      have : pre = [] := List.length_eq_zero.mp h0
      subst this; simpa using h1.symm
  | succ k ih =>
    intro rest
    simp only [repeatN, List.mem_flatMap, mem_charStep, ih]
    constructor
    · rintro ⟨mid, ⟨c, rfl, hc⟩, pre, hlen, rfl, hall⟩
      refine ⟨c :: pre, by simp [hlen], rfl, ?_⟩
      intro x hx
      rcases List.mem_cons.mp hx with rfl | hx
      · exact hc
      · exact hall x hx
    · rintro ⟨pre, hlen, rfl, hall⟩
      cases pre with
      | nil => simp at hlen
      | cons x xs =>
        exact ⟨xs ++ r, ⟨x, rfl, hall x (List.mem_cons_self _ _)⟩, xs, by simpa using hlen, rfl,
          fun y hy => hall y (List.mem_cons_of_mem _ hy)⟩

theorem mem_run_atLeast_set (n k : Nat) (items : List ClassItem) (r rest : List Char) :
    r ∈ Regex.run n (.atLeast k (.set false items)) rest ↔
      ∃ pre, k ≤ pre.length ∧ rest = pre ++ r ∧
        ∀ c ∈ pre, items.any (fun i => i.mem c) = true := by
  rw [Regex.run, run_set_eq]
  simp only [List.mem_flatMap, mem_repeatN_charStep]
  constructor
  · rintro ⟨mid, ⟨pre1, hlen, rfl, h1⟩, hmid⟩
    rw [mem_iterate_charStep _ _ _ _ (le_refl _)] at hmid
    obtain ⟨pre2, rfl, h2⟩ := hmid
    refine ⟨pre1 ++ pre2, by simp [hlen], by simp, ?_⟩
    intro c hc
    rcases List.mem_append.mp hc with h | h
    · exact h1 c h
    · exact h2 c h
  · rintro ⟨pre, hk, rfl, hall⟩
    refine ⟨pre.drop k ++ r, ⟨pre.take k, by simp [hk], ?_,
      fun c hc => hall c (List.mem_of_mem_take hc)⟩, ?_⟩
    · rw [← List.append_assoc, List.take_append_drop]
    · rw [mem_iterate_charStep _ _ _ _ (le_refl _)]
      exact ⟨pre.drop k, rfl, fun c hc => hall c (List.mem_of_mem_drop hc)⟩

theorem mem_run_seq (n : Nat) (a b : Regex) (r rest : List Char) :
    r ∈ Regex.run n (.seq a b) rest ↔ ∃ mid, mid ∈ Regex.run n a rest ∧ r ∈ Regex.run n b mid := by
  rw [Regex.run, List.mem_flatMap]

theorem mem_run_eol (n : Nat) (r rest : List Char) :
    r ∈ Regex.run n .eol rest ↔ rest = [] ∧ r = [] := by
  cases rest with
  | nil => simp [Regex.run]
  | cons c cs => simp [Regex.run]

theorem mem_run_bol (n : Nat) (r rest : List Char) :
    r ∈ Regex.run n .bol rest ↔ rest.length = n ∧ r = rest := by
  by_cases h : rest.length = n <;> simp [Regex.run, h]

theorem mem_run_lookahead (n : Nat) (a : Regex) (r rest : List Char) :
    r ∈ Regex.run n (.lookahead a) rest ↔ (∃ x, x ∈ Regex.run n a rest) ∧ r = rest := by
  rw [Regex.run]
  cases h : Regex.run n a rest with
  | nil => simp
  | cons y ys => simp

theorem mem_run_dotStar_set (n : Nat) (items : List ClassItem) (r rest : List Char) :
    r ∈ Regex.run n (.seq (.star .dot) (.set false items)) rest ↔
      ∃ pre x, rest = pre ++ x :: r ∧ (∀ c ∈ pre, isLineTerminator c = false) ∧
        items.any (fun i => i.mem x) = true := by
  rw [Regex.run, List.mem_flatMap]
  have hset := congrFun (run_set_eq n items)
  simp only at hset
  simp only [hset, mem_charStep]
  rw [Regex.run, run_dot_eq]
  constructor
  · rintro ⟨mid, hmid, x, rfl, hx⟩
    rw [mem_iterate_charStep _ _ _ _ (le_refl _)] at hmid
    obtain ⟨pre, rfl, hpre⟩ := hmid
    exact ⟨pre, x, rfl, fun c hc => by simpa using hpre c hc, hx⟩
  · rintro ⟨pre, x, rfl, hpre, hx⟩
    refine ⟨x :: r, ?_, x, rfl, hx⟩
    rw [mem_iterate_charStep _ _ _ _ (le_refl _)]
    exact ⟨pre, rfl, fun c hc => by simpa using hpre c hc⟩

theorem mem_run_lookahead_dotStar_set (n : Nat) (items : List ClassItem) (r rest : List Char) :
    r ∈ Regex.run n (.lookahead (.seq (.star .dot) (.set false items))) rest ↔
      (∃ pre x post, rest = pre ++ x :: post ∧ (∀ c ∈ pre, isLineTerminator c = false) ∧
        items.any (fun i => i.mem x) = true) ∧ r = rest := by
  rw [mem_run_lookahead]
  simp only [mem_run_dotStar_set]
  constructor
  · rintro ⟨⟨post, pre, x, h⟩, hr⟩
    exact ⟨⟨pre, x, post, h⟩, hr⟩
  · rintro ⟨⟨pre, x, post, h⟩, hr⟩
    exact ⟨⟨post, pre, x, h⟩, hr⟩

/-- What the password regex demands of the input, read off the matcher. -/
theorem run_passwordRegex_iff (n : Nat) (rest : List Char) :
    (∃ r, r ∈ Regex.run n passwordRegex rest) ↔
      rest.length = n ∧
      (∃ pre x post, rest = pre ++ x :: post ∧ (∀ c ∈ pre, isLineTerminator c = false) ∧
        [ClassItem.range 'a' 'z'].any (fun i => i.mem x) = true) ∧
      (∃ pre x post, rest = pre ++ x :: post ∧ (∀ c ∈ pre, isLineTerminator c = false) ∧
        [ClassItem.range 'A' 'Z'].any (fun i => i.mem x) = true) ∧
      (∃ pre x post, rest = pre ++ x :: post ∧ (∀ c ∈ pre, isLineTerminator c = false) ∧
        [ClassItem.digit].any (fun i => i.mem x) = true) ∧
      (∃ pre x post, rest = pre ++ x :: post ∧ (∀ c ∈ pre, isLineTerminator c = false) ∧
        specialClass.any (fun i => i.mem x) = true) ∧
      8 ≤ rest.length ∧ ∀ c ∈ rest, passwordClass.any (fun i => i.mem c) = true := by
  unfold passwordRegex
  simp only [mem_run_seq, mem_run_bol, mem_run_lookahead_dotStar_set, mem_run_eol,
    mem_run_atLeast_set]
  constructor
  · rintro ⟨r, m1, ⟨hn, rfl⟩, m2, ⟨h1, rfl⟩, m3, ⟨h2, rfl⟩, m4, ⟨h3, rfl⟩, m5, ⟨h4, rfl⟩, m6,
      ⟨pre, h8, e5, hall⟩, rfl, rfl⟩
    have hpre : m5 = pre := by simpa using e5
    subst hpre
    exact ⟨hn, h1, h2, h3, h4, h8, hall⟩
  · rintro ⟨hn, h1, h2, h3, h4, h8, hall⟩
    exact ⟨[], rest, ⟨hn, rfl⟩, rest, ⟨h1, rfl⟩, rest, ⟨h2, rfl⟩, rest, ⟨h3, rfl⟩, rest,
      ⟨h4, rfl⟩, [], ⟨rest, h8, by simp, hall⟩, rfl, rfl⟩

theorem not_isEmpty_iff (l : List (List Char)) : (!l.isEmpty) = true ↔ ∃ x, x ∈ l := by
  cases l with
  | nil => simp
  | cons y ys => simp

theorem testFrom_passwordRegex (n : Nat) :
    ∀ rest : List Char, rest.length ≤ n →
      (Regex.testFrom passwordRegex n rest = true ↔ ∃ r, r ∈ Regex.run n passwordRegex rest) := by
  intro rest
  induction rest with
  | nil =>
    intro _
    rw [Regex.testFrom, not_isEmpty_iff]
  | cons c cs ih =>
    intro h
    have hlt : cs.length < n := by
      simp only [List.length_cons] at h
      omega
    have hcs : Regex.testFrom passwordRegex n cs = false := by
      cases hb : Regex.testFrom passwordRegex n cs with
      | false => rfl
      | true =>
        have hrun := (ih (Nat.le_of_lt hlt)).mp hb
        have hlen := ((run_passwordRegex_iff n cs).mp hrun).1
        omega
    rw [Regex.testFrom, hcs, Bool.or_false, not_isEmpty_iff]

theorem lowerClass_iff (c : Char) :
    [ClassItem.range 'a' 'z'].any (fun i => i.mem c) = true ↔ IsLowerLetter c := by
  simp [ClassItem.mem, IsLowerLetter]

theorem upperClass_iff (c : Char) :
    [ClassItem.range 'A' 'Z'].any (fun i => i.mem c) = true ↔ IsUpperLetter c := by
  simp [ClassItem.mem, IsUpperLetter]

theorem digitClass_iff (c : Char) :
    [ClassItem.digit].any (fun i => i.mem c) = true ↔ IsDigitChar c := by
  simp [ClassItem.mem, IsDigitChar]

theorem specialClass_iff (c : Char) :
    specialClass.any (fun i => i.mem c) = true ↔ IsSpecialChar c := by
  simp [specialClass, ClassItem.mem, IsSpecialChar]

theorem passwordClass_iff (c : Char) :
    passwordClass.any (fun i => i.mem c) = true ↔
      IsLowerLetter c ∨ IsUpperLetter c ∨ IsDigitChar c ∨ IsSpecialChar c := by
  simp only [passwordClass, ClassItem.mem, IsLowerLetter, IsUpperLetter, IsDigitChar,
    IsSpecialChar, List.any_cons, List.any_nil, Bool.or_false, Bool.or_eq_true,
    Bool.and_eq_true, decide_eq_true_eq, beq_iff_eq, List.mem_cons, List.mem_singleton,
    List.not_mem_nil, or_false]
  tauto

theorem not_lineTerminator_of_class (c : Char)
    (h : IsLowerLetter c ∨ IsUpperLetter c ∨ IsDigitChar c ∨ IsSpecialChar c) :
    isLineTerminator c = false := by
  simp only [isLineTerminator, Bool.or_eq_false_iff, beq_eq_false_iff_ne, ne_eq]
  simp only [IsLowerLetter, IsUpperLetter, IsDigitChar, IsSpecialChar, List.mem_cons,
    List.mem_singleton, List.not_mem_nil, or_false] at h
  refine ⟨⟨⟨?_, ?_⟩, ?_⟩, ?_⟩ <;>
  · rintro rfl
    revert h
    decide

/-- Inside a string whose characters all belong to the password class, the
lookahead `(?=.*[items])` holds exactly when some character is in `items`. -/
theorem lookahead_cond_iff (P : Char → Prop) (rest : List Char)
    (hall : ∀ c ∈ rest, isLineTerminator c = false) :
    (∃ pre x post, rest = pre ++ x :: post ∧ (∀ c ∈ pre, isLineTerminator c = false) ∧ P x) ↔
      ∃ x ∈ rest, P x := by
  constructor
  · rintro ⟨pre, x, post, rfl, -, hx⟩
    exact ⟨x, by simp, hx⟩
  · rintro ⟨x, hmem, hx⟩
    obtain ⟨pre, post, rfl⟩ := List.append_of_mem hmem
    exact ⟨pre, x, post, rfl, fun c hc => hall c (List.mem_append_left _ hc), hx⟩

/-- The password regex accepts exactly the strings that meet the complexity rule. -/
theorem passwordRegex_test_iff (p : String) :
    passwordRegex.test p = true ↔ MeetsComplexity p := by
  unfold Regex.test MeetsComplexity
  rw [testFrom_passwordRegex _ _ (le_refl _), run_passwordRegex_iff]
  simp only [lowerClass_iff, upperClass_iff, digitClass_iff, specialClass_iff, passwordClass_iff,
    String.length, true_and]
  constructor
  · rintro ⟨h1, h2, h3, h4, h8, hall⟩
    have hlt : ∀ c ∈ p.data, isLineTerminator c = false :=
      fun c hc => not_lineTerminator_of_class c (hall c hc)
    exact ⟨h8, (lookahead_cond_iff _ _ hlt).mp h1, (lookahead_cond_iff _ _ hlt).mp h2,
      (lookahead_cond_iff _ _ hlt).mp h3, (lookahead_cond_iff _ _ hlt).mp h4, hall⟩
  · rintro ⟨h8, h1, h2, h3, h4, hall⟩
    have hlt : ∀ c ∈ p.data, isLineTerminator c = false :=
      fun c hc => not_lineTerminator_of_class c (hall c hc)
    exact ⟨(lookahead_cond_iff _ _ hlt).mpr h1, (lookahead_cond_iff _ _ hlt).mpr h2,
      (lookahead_cond_iff _ _ hlt).mpr h3, (lookahead_cond_iff _ _ hlt).mpr h4, h8, hall⟩

/-! ## Property lists -/

theorem getProp_setProp_same (l : List (String × String)) (k v : String) :
    getProp (setProp l k v) k = some v := by
  induction l with
  | nil => simp [setProp, getProp]
  | cons kv t ih =>
    obtain ⟨k0, v0⟩ := kv
    by_cases h : k0 = k
    · simp [setProp, getProp, h]
    · simp [setProp, getProp, h, ih]

theorem getProp_setProp_ne (l : List (String × String)) (k v key : String) (hne : key ≠ k) :
    getProp (setProp l k v) key = getProp l key := by
  induction l with
  | nil => simp [setProp, getProp, Ne.symm hne]
  | cons kv t ih =>
    obtain ⟨k0, v0⟩ := kv
    by_cases h : k0 = k
    · subst h
      simp [setProp, getProp, Ne.symm hne]
    · by_cases h2 : k0 = key
      · subst h2
        simp [setProp, getProp, h]
      · simp [setProp, getProp, h, h2, ih]

theorem setProp_setProp_restore (l : List (String × String)) (k v w : String)
    (h : getProp l k = some v) : setProp (setProp l k w) k v = l := by
  induction l with
  | nil => simp [getProp] at h
  | cons kv t ih =>
    obtain ⟨k0, v0⟩ := kv
    by_cases hk : k0 = k
    · subst hk
      simp [getProp] at h
      simp [setProp, h]
    · simp only [getProp, hk, if_false] at h
      simp [setProp, hk, ih h]

theorem Record.get_set_same (r : Record) (k v : String) : (r.set k v).get k = some v :=
  getProp_setProp_same r.props k v

theorem Record.get_set_ne (r : Record) (k v key : String) (hne : key ≠ k) :
    (r.set k v).get key = r.get key :=
  getProp_setProp_ne r.props k v key hne

theorem Record.set_set_restore (r : Record) (k v w : String) (h : r.get k = some v) :
    (r.set k w).set k v = r := by
  cases r with
  | mk props => simp [Record.set, setProp_setProp_restore props k v w h]

theorem passwordRegex_rejects_empty : passwordRegex.test "" = false := by decide

theorem emailRegex_rejects_empty : emailRegex.test "" = false := by decide

/-! ## Password reset: completion -/

/-- C1: a non-empty password that fails the complexity regex is answered with
exactly one `sendUserError` carrying the complexity message, whatever the token
is, and no collaborator (`validateToken`, `getUserByEmail`, `isValidPassword`,
`updateUserPassword`) is called. -/
theorem resetPassword_weak_password (sv : Services) (req : Request) (password : String)
    (hpw : req.body.get "password" = some password) (hne : password ≠ "")
    (hweak : passwordRegex.test password = false) :
    resetPassword sv req =
      ⟨[.loggerWarning "La contraseña debe tener al menos 8 caracteres, una letra mayúscula, una letra minúscula, un número y un caracter especial",
        .sendUserError "La contraseña debe tener al menos 8 caracteres, una letra mayúscula, una letra minúscula, un número y un caracter especial"],
        .completed⟩ ∧
    (resetPassword sv req).responses =
      [.sendUserError "La contraseña debe tener al menos 8 caracteres, una letra mayúscula, una letra minúscula, un número y un caracter especial"] ∧
    (resetPassword sv req).calls = [] := by
  have hrun : resetPassword sv req =
      ⟨[.loggerWarning "La contraseña debe tener al menos 8 caracteres, una letra mayúscula, una letra minúscula, un número y un caracter especial",
        .sendUserError "La contraseña debe tener al menos 8 caracteres, una letra mayúscula, una letra minúscula, un número y un caracter especial"],
        .completed⟩ := by
    simp [resetPassword, resetPasswordTry, hpw, hne, hweak]
  rw [hrun]
  exact ⟨rfl, rfl, rfl⟩

/-- The password `short1!` (7 characters) with a token that would validate. -/
theorem resetPassword_weak_password_short1 :
    resetPassword sampleServices
        (bodyRequest [("token", "ana@shop.com"), ("password", "short1!")]) =
      ⟨[.loggerWarning "La contraseña debe tener al menos 8 caracteres, una letra mayúscula, una letra minúscula, un número y un caracter especial",
        .sendUserError "La contraseña debe tener al menos 8 caracteres, una letra mayúscula, una letra minúscula, un número y un caracter especial"],
        .completed⟩ ∧
    (resetPassword sampleServices
        (bodyRequest [("token", "ana@shop.com"), ("password", "short1!")])).responses =
      [.sendUserError "La contraseña debe tener al menos 8 caracteres, una letra mayúscula, una letra minúscula, un número y un caracter especial"] ∧
    (resetPassword sampleServices
        (bodyRequest [("token", "ana@shop.com"), ("password", "short1!")])).calls = [] :=
  resetPassword_weak_password sampleServices
    (bodyRequest [("token", "ana@shop.com"), ("password", "short1!")]) "short1!"
    (by decide) (by decide) (by decide)

/-- C2: with a password that passes the regex and a token for which
`validateToken` returns null, the handler answers
`sendUserError('No se ha proporcionado un token válido')`; its only collaborator
call is `validateToken`, so neither `getUserByEmail` nor `updateUserPassword`
is called and no record is handed to the store. -/
theorem resetPassword_invalid_token (sv : Services) (req : Request) (password : String)
    (hpw : req.body.get "password" = some password)
    (hstrong : passwordRegex.test password = true)
    (htoken : sv.validateToken (req.body.get "token") = .ok none) :
    resetPassword sv req =
      ⟨[.validateToken (req.body.get "token"),
        .loggerWarning "No se ha proporcionado un token válido",
        .sendUserError "No se ha proporcionado un token válido"], .completed⟩ ∧
    (resetPassword sv req).responses =
      [.sendUserError "No se ha proporcionado un token válido"] ∧
    (resetPassword sv req).calls = [.validateToken (req.body.get "token")] ∧
    (resetPassword sv req).passwordUpdates = [] := by
  have hne : password ≠ "" := by
    rintro rfl
    rw [passwordRegex_rejects_empty] at hstrong
    exact Bool.noConfusion hstrong
  have hrun : resetPassword sv req =
      ⟨[.validateToken (req.body.get "token"),
        .loggerWarning "No se ha proporcionado un token válido",
        .sendUserError "No se ha proporcionado un token válido"], .completed⟩ := by
    simp [resetPassword, resetPasswordTry, hpw, hne, hstrong, htoken]
  rw [hrun]
  exact ⟨rfl, rfl, rfl, rfl⟩

/-- A strong password with a token the token utility rejects. -/
theorem resetPassword_invalid_token_tampered :
    resetPassword sampleServices
        (bodyRequest [("token", "tampered"), ("password", "Abcdef1!")]) =
      ⟨[.validateToken (some "tampered"),
        .loggerWarning "No se ha proporcionado un token válido",
        .sendUserError "No se ha proporcionado un token válido"], .completed⟩ :=
  (resetPassword_invalid_token sampleServices
    (bodyRequest [("token", "tampered"), ("password", "Abcdef1!")]) "Abcdef1!"
    (by decide) (by decide) (by rfl)).1

/-- C3: with a password that passes the regex, a token that validates to the
email of an existing user, and `isValidPassword(password, user)` true, the
handler answers `sendUserError('La nueva contraseña no puede ser igual a la
anterior')`; `updateUserPassword` is not called, and the only record handed to
a collaborator is the user as looked up, its password field untouched. -/
theorem resetPassword_same_password (sv : Services) (req : Request) (password : String)
    (decoded user : Record)
    (hpw : req.body.get "password" = some password)
    (hstrong : passwordRegex.test password = true)
    (htoken : sv.validateToken (req.body.get "token") = .ok (some decoded))
    (huser : sv.getUserByEmail (decoded.get "email") = .ok (some user))
    (hsame : sv.isValidPassword password user = .ok true) :
    resetPassword sv req =
      ⟨[.validateToken (req.body.get "token"), .getUserByEmail (decoded.get "email"),
        .isValidPassword password user,
        .loggerWarning "La nueva contraseña no puede ser igual a la anterior",
        .sendUserError "La nueva contraseña no puede ser igual a la anterior"], .completed⟩ ∧
    (resetPassword sv req).responses =
      [.sendUserError "La nueva contraseña no puede ser igual a la anterior"] ∧
    (resetPassword sv req).passwordUpdates = [] := by
  have hne : password ≠ "" := by
    rintro rfl
    rw [passwordRegex_rejects_empty] at hstrong
    exact Bool.noConfusion hstrong
  have hrun : resetPassword sv req =
      ⟨[.validateToken (req.body.get "token"), .getUserByEmail (decoded.get "email"),
        .isValidPassword password user,
        .loggerWarning "La nueva contraseña no puede ser igual a la anterior",
        .sendUserError "La nueva contraseña no puede ser igual a la anterior"], .completed⟩ := by
    simp [resetPassword, resetPasswordTry, hpw, hne, hstrong, htoken, huser, hsame]
  rw [hrun]
  exact ⟨rfl, rfl, rfl⟩

/-- The stored user submits the password already on record. -/
theorem resetPassword_same_password_sample :
    (resetPassword
        (storeOf ⟨[("_id", "u1"), ("email", "ana@shop.com"), ("password", "hash-of-Abcdef1!")]⟩)
        (bodyRequest [("token", "ana@shop.com"), ("password", "Abcdef1!")])).responses =
      [.sendUserError "La nueva contraseña no puede ser igual a la anterior"] ∧
    (resetPassword
        (storeOf ⟨[("_id", "u1"), ("email", "ana@shop.com"), ("password", "hash-of-Abcdef1!")]⟩)
        (bodyRequest [("token", "ana@shop.com"), ("password", "Abcdef1!")])).passwordUpdates =
      [] :=
  (resetPassword_same_password
    (storeOf ⟨[("_id", "u1"), ("email", "ana@shop.com"), ("password", "hash-of-Abcdef1!")]⟩)
    (bodyRequest [("token", "ana@shop.com"), ("password", "Abcdef1!")]) "Abcdef1!"
    ⟨[("email", "ana@shop.com")]⟩
    ⟨[("_id", "u1"), ("email", "ana@shop.com"), ("password", "hash-of-Abcdef1!")]⟩
    (by decide) (by decide) (by decide) (by decide) (by decide)).2

/-- C4, as the claim words it, fails when the store refuses the write: every
condition of the claim holds (strong password, token validating to the email of
an existing user, `isValidPassword` false), `updateUserPassword` is called
once, and no success message is sent: the handler ends by throwing. -/
theorem resetPassword_success_fails_on_write_error :
    passwordRegex.test "Abcdef1!" = true ∧
    readOnlyStore.validateToken (some "ana@shop.com") = .ok (some ⟨[("email", "ana@shop.com")]⟩) ∧
    readOnlyStore.getUserByEmail (some "ana@shop.com") = .ok (some sampleUser) ∧
    readOnlyStore.isValidPassword "Abcdef1!" sampleUser = .ok false ∧
    (resetPassword readOnlyStore
        (bodyRequest [("token", "ana@shop.com"), ("password", "Abcdef1!")])).passwordUpdates =
      [(some "u1", sampleUser.set "password" "Abcdef1!")] ∧
    Effect.sendSuccessMessage "Contraseña reestablecida exitosamente" ∉
      (resetPassword readOnlyStore
        (bodyRequest [("token", "ana@shop.com"), ("password", "Abcdef1!")])).effects ∧
    (resetPassword readOnlyStore
        (bodyRequest [("token", "ana@shop.com"), ("password", "Abcdef1!")])).responses = [] ∧
    (resetPassword readOnlyStore
        (bodyRequest [("token", "ana@shop.com"), ("password", "Abcdef1!")])).outcome =
      .threw (.referenceError "decoded") := by
  refine ⟨by decide, by decide, by decide, by decide, by decide, by decide, by decide, by decide⟩

/-- C4 (amended): with a password `p` that passes the regex, a token that
validates to a payload whose email finds a user `u`, `isValidPassword(p, u)`
false, and a storage update that does not raise, the handler calls
`updateUserPassword` exactly once, with `u._id` and a record equal to `u` but
for its password field, which is the plaintext `p`; it then sends
`sendSuccessMessage('Contraseña reestablecida exitosamente')` and no error
response. -/
theorem resetPassword_success (sv : Services) (req : Request) (password : String)
    (decoded user : Record)
    (hpw : req.body.get "password" = some password)
    (hstrong : passwordRegex.test password = true)
    (htoken : sv.validateToken (req.body.get "token") = .ok (some decoded))
    (huser : sv.getUserByEmail (decoded.get "email") = .ok (some user))
    (hdiff : sv.isValidPassword password user = .ok false)
    (hwrite : sv.updateUserPassword (user.get "_id") (user.set "password" password) = .ok ()) :
    (resetPassword sv req).passwordUpdates = [(user.get "_id", user.set "password" password)] ∧
    (user.set "password" password).get "password" = some password ∧
    (∀ key, key ≠ "password" → (user.set "password" password).get key = user.get key) ∧
    (resetPassword sv req).responses =
      [.sendSuccessMessage "Contraseña reestablecida exitosamente"] ∧
    (resetPassword sv req).effects.getLast? =
      some (.sendSuccessMessage "Contraseña reestablecida exitosamente") ∧
    (resetPassword sv req).outcome = .completed := by
  have hne : password ≠ "" := by
    rintro rfl
    rw [passwordRegex_rejects_empty] at hstrong
    exact Bool.noConfusion hstrong
  have hid : (user.set "password" password).get "_id" = user.get "_id" :=
    Record.get_set_ne user "password" password "_id" (by decide)
  have hrun : resetPassword sv req =
      ⟨[.validateToken (req.body.get "token"), .getUserByEmail (decoded.get "email"),
        .isValidPassword password user,
        .updateUserPassword (user.get "_id") (user.set "password" password),
        .loggerInfo ("Contraseña de usuario " ++
          interp ((user.set "password" password).get "email") ++ " reestablecida exitosamente"),
        .sendSuccessMessage "Contraseña reestablecida exitosamente"], .completed⟩ := by
    simp [resetPassword, resetPasswordTry, hpw, hne, hstrong, htoken, huser, hdiff, hid, hwrite]
  rw [hrun]
  exact ⟨rfl, Record.get_set_same user "password" password,
    fun key hkey => Record.get_set_ne user "password" password key hkey, rfl, rfl, rfl⟩

/-- The stored user resets to a new strong password. -/
theorem resetPassword_success_sample :
    (resetPassword sampleServices
        (bodyRequest [("token", "ana@shop.com"), ("password", "Abcdef1!")])).passwordUpdates =
      [(some "u1", ⟨[("_id", "u1"), ("email", "ana@shop.com"), ("password", "Abcdef1!"),
        ("role", "user"), ("cart", "c1")]⟩)] ∧
    (resetPassword sampleServices
        (bodyRequest [("token", "ana@shop.com"), ("password", "Abcdef1!")])).responses =
      [.sendSuccessMessage "Contraseña reestablecida exitosamente"] :=
  have h := resetPassword_success sampleServices
    (bodyRequest [("token", "ana@shop.com"), ("password", "Abcdef1!")]) "Abcdef1!"
    ⟨[("email", "ana@shop.com")]⟩ sampleUser
    (by decide) (by decide) (by decide) (by decide) (by decide) (by decide)
  ⟨h.1, h.2.2.2.1⟩

/-! ## Password reset: request -/

/-- C5: when the email is missing, empty, or a string the email regex rejects,
the handler answers with exactly one `sendUserError` and calls no collaborator
(`getUserByEmail`, `generateToken`, `sendResetPasswordEmail`). -/
theorem restorePassword_bad_email (sv : Services) (req : Request)
    (hbad : req.body.get "email" = none ∨ req.body.get "email" = some "" ∨
      ∃ email, req.body.get "email" = some email ∧ emailRegex.test email = false) :
    ∃ msg, restorePassword sv req = ⟨[.loggerWarning msg, .sendUserError msg], .completed⟩ ∧
      (restorePassword sv req).responses = [.sendUserError msg] ∧
      (restorePassword sv req).calls = [] := by
  rcases hbad with h | h | ⟨email, h, hre⟩
  · refine ⟨"El campo correo electrónico es obligatorio", ?_⟩
    have hrun : restorePassword sv req =
        ⟨[.loggerWarning "El campo correo electrónico es obligatorio",
          .sendUserError "El campo correo electrónico es obligatorio"], .completed⟩ := by
      simp [restorePassword, restorePasswordTry, h]
    rw [hrun]
    exact ⟨rfl, rfl, rfl⟩
  · refine ⟨"El campo correo electrónico es obligatorio", ?_⟩
    have hrun : restorePassword sv req =
        ⟨[.loggerWarning "El campo correo electrónico es obligatorio",
          .sendUserError "El campo correo electrónico es obligatorio"], .completed⟩ := by
      simp [restorePassword, restorePasswordTry, h]
    rw [hrun]
    exact ⟨rfl, rfl, rfl⟩
  · by_cases hne : email = ""
    · refine ⟨"El campo correo electrónico es obligatorio", ?_⟩
      have hrun : restorePassword sv req =
          ⟨[.loggerWarning "El campo correo electrónico es obligatorio",
            .sendUserError "El campo correo electrónico es obligatorio"], .completed⟩ := by
        simp [restorePassword, restorePasswordTry, h, hne]
      rw [hrun]
      exact ⟨rfl, rfl, rfl⟩
    · refine ⟨"El correo electrónico ingresado no es válido", ?_⟩
      have hrun : restorePassword sv req =
          ⟨[.loggerWarning "El correo electrónico ingresado no es válido",
            .sendUserError "El correo electrónico ingresado no es válido"], .completed⟩ := by
        simp [restorePassword, restorePasswordTry, h, hne, hre]
      rw [hrun]
      exact ⟨rfl, rfl, rfl⟩

/-- The string `not-an-email` is rejected before any lookup. -/
theorem restorePassword_bad_email_sample :
    ∃ msg, restorePassword sampleServices (bodyRequest [("email", "not-an-email")]) =
        ⟨[.loggerWarning msg, .sendUserError msg], .completed⟩ ∧
      (restorePassword sampleServices (bodyRequest [("email", "not-an-email")])).responses =
        [.sendUserError msg] ∧
      (restorePassword sampleServices (bodyRequest [("email", "not-an-email")])).calls = [] :=
  restorePassword_bad_email sampleServices (bodyRequest [("email", "not-an-email")])
    (Or.inr (Or.inr ⟨"not-an-email", by decide, by decide⟩))

/-- C6: for an email `e` that matches the email regex and finds a user `u`,
with a mail service that does not raise, the handler asks the mailing service
exactly once, for `u` and the link
`http://localhost:8080/reset-password?token=` followed by
`generateToken({email: e})`, and then answers with a success message, its only
response. If `validateToken` applied to that generated token returns a payload
carrying the fields of `{email: e}`, the token in the link validates to a
payload whose email is `e`. -/
theorem restorePassword_success (sv : Services) (req : Request) (email : String) (user : Record)
    (hemail : req.body.get "email" = some email)
    (hmatch : emailRegex.test email = true)
    (huser : sv.getUserByEmail (some email) = .ok (some user))
    (hmail : sv.sendResetPasswordEmail user
      ("http://localhost:8080/reset-password?token=" ++ sv.generateToken ⟨[("email", email)]⟩)
        = .ok ()) :
    (restorePassword sv req).mailsSent =
      [(user, "http://localhost:8080/reset-password?token=" ++
        sv.generateToken ⟨[("email", email)]⟩)] ∧
    (restorePassword sv req).responses =
      [.sendSuccessMessage ("Se ha enviado un correo electrónico a " ++
        interp (user.get "email") ++ " con las instrucciones para restaurar tu contraseña")] ∧
    (restorePassword sv req).effects.getLast? =
      some (.sendSuccessMessage ("Se ha enviado un correo electrónico a " ++
        interp (user.get "email") ++ " con las instrucciones para restaurar tu contraseña")) ∧
    (restorePassword sv req).outcome = .completed ∧
    ((∃ payload, sv.validateToken (some (sv.generateToken ⟨[("email", email)]⟩)) =
          .ok (some payload) ∧
        ∀ key val, Record.get ⟨[("email", email)]⟩ key = some val → payload.get key = some val) →
      ∃ payload, sv.validateToken (some (sv.generateToken ⟨[("email", email)]⟩)) =
          .ok (some payload) ∧ payload.get "email" = some email) := by
  have hne : email ≠ "" := by
    rintro rfl
    rw [emailRegex_rejects_empty] at hmatch
    exact Bool.noConfusion hmatch
  have hrun : restorePassword sv req =
      ⟨[.getUserByEmail (some email), .generateToken ⟨[("email", email)]⟩,
        .sendResetPasswordEmail user
          ("http://localhost:8080/reset-password?token=" ++
            sv.generateToken ⟨[("email", email)]⟩),
        .loggerInfo ("Correo electrónico enviado exitosamente a " ++
          interp (user.get "email") ++ " con las instrucciones para restaurar contraseña"),
        .sendSuccessMessage ("Se ha enviado un correo electrónico a " ++
          interp (user.get "email") ++ " con las instrucciones para restaurar tu contraseña")],
        .completed⟩ := by
    simp [restorePassword, restorePasswordTry, hemail, hne, hmatch, huser, hmail]
  rw [hrun]
  refine ⟨rfl, rfl, rfl, rfl, ?_⟩
  rintro ⟨payload, hvalid, hfields⟩
  exact ⟨payload, hvalid, hfields "email" email (by simp [Record.get, getProp])⟩

/-- A registered email: one mail, whose link carries a token that validates
back to that email. -/
theorem restorePassword_success_sample :
    (restorePassword sampleServices (bodyRequest [("email", "ana@shop.com")])).mailsSent =
      [(sampleUser, "http://localhost:8080/reset-password?token=ana@shop.com")] ∧
    (restorePassword sampleServices (bodyRequest [("email", "ana@shop.com")])).responses =
      [.sendSuccessMessage "Se ha enviado un correo electrónico a ana@shop.com con las instrucciones para restaurar tu contraseña"] ∧
    (∃ payload, sampleServices.validateToken (some "ana@shop.com") = .ok (some payload) ∧
      payload.get "email" = some "ana@shop.com") :=
  have h := restorePassword_success sampleServices (bodyRequest [("email", "ana@shop.com")])
    "ana@shop.com" sampleUser (by decide) (by decide) (by decide) (by decide)
  ⟨h.1, h.2.1, h.2.2.2.2 ⟨⟨[("email", "ana@shop.com")]⟩, by decide, fun _ _ hkv => hkv⟩⟩

/-! ## Role toggle -/

theorem changeUserRole_persisted (sv : Services) (req : Request) (user : Record)
    (hfound : sv.getUserById (req.params.get "uid") = .ok (some user)) :
    (changeUserRole sv req).persisted =
      [(req.params.get "uid",
        user.set "role" (if user.get "role" = some "user" then "premium" else "user"))] := by
  cases hupd : sv.updateUser (req.params.get "uid")
      (user.set "role" (if user.get "role" = some "user" then "premium" else "user")) with
  | error m => simp [changeUserRole, changeUserRoleTry, hfound, hupd, Run.persisted]
  | ok _ => simp [changeUserRole, changeUserRoleTry, hfound, hupd, Run.persisted]

/-- C7: for a stored user whose role is `user`, one invocation hands
`updateUser` exactly one record, with role `premium` and every other field as
it was; for a stored user whose role is `premium`, the record has role `user`;
and a second invocation that reads the record the first one persisted hands
`updateUser` the original record again, so the original role is restored. -/
theorem changeUserRole_toggle (sv : Services) (req : Request) (user : Record)
    (hfound : sv.getUserById (req.params.get "uid") = .ok (some user))
    (hrole : user.get "role" = some "user" ∨ user.get "role" = some "premium") :
    (user.get "role" = some "user" →
      (changeUserRole sv req).persisted =
        [(req.params.get "uid", user.set "role" "premium")]) ∧
    (user.get "role" = some "premium" →
      (changeUserRole sv req).persisted = [(req.params.get "uid", user.set "role" "user")]) ∧
    (∀ role, (user.set "role" role).get "role" = some role ∧
      ∀ key, key ≠ "role" → (user.set "role" role).get key = user.get key) ∧
    (∀ stored, (changeUserRole sv req).persisted = [(req.params.get "uid", stored)] →
      ∀ (sv2 : Services) (req2 : Request), req2.params.get "uid" = req.params.get "uid" →
        sv2.getUserById (req2.params.get "uid") = .ok (some stored) →
        (changeUserRole sv2 req2).persisted = [(req.params.get "uid", user)]) := by
  have hfirst := changeUserRole_persisted sv req user hfound
  refine ⟨?_, ?_, ?_, ?_⟩
  · intro h
    rw [hfirst, if_pos h]
  · intro h
    have hnot : ¬ user.get "role" = some "user" := by
      rw [h]; decide
    rw [hfirst, if_neg hnot]
  · intro role
    exact ⟨Record.get_set_same user "role" role,
      fun key hkey => Record.get_set_ne user "role" role key hkey⟩
  · intro stored hstored sv2 req2 huid hfound2
    rw [hfirst] at hstored
    have hst : stored =
        user.set "role" (if user.get "role" = some "user" then "premium" else "user") := by
      simpa using hstored.symm
    rw [changeUserRole_persisted sv2 req2 stored hfound2, huid, hst]
    rcases hrole with h | h
    · have hflip : ¬ (user.set "role" "premium").get "role" = some "user" := by
        rw [Record.get_set_same]; decide
      rw [if_pos h, if_neg hflip, Record.set_set_restore user "role" "user" "premium" h]
    · have hnot : ¬ user.get "role" = some "user" := by
        rw [h]; decide
      have hflip : (user.set "role" "user").get "role" = some "user" :=
        Record.get_set_same user "role" "user"
      rw [if_neg hnot, if_pos hflip, Record.set_set_restore user "role" "premium" "user" h]

/-- A standard user is promoted, and a second invocation over the promoted
record hands the store the original record. -/
theorem changeUserRole_toggle_sample :
    (changeUserRole sampleServices ⟨⟨[]⟩, ⟨[("uid", "u1")]⟩, none, ⟨[]⟩⟩).persisted =
      [(some "u1", sampleUser.set "role" "premium")] ∧
    (changeUserRole (storeOf (sampleUser.set "role" "premium"))
        ⟨⟨[]⟩, ⟨[("uid", "u1")]⟩, none, ⟨[]⟩⟩).persisted =
      [(some "u1", sampleUser)] :=
  have h := changeUserRole_toggle sampleServices ⟨⟨[]⟩, ⟨[("uid", "u1")]⟩, none, ⟨[]⟩⟩
    sampleUser (by decide) (Or.inl (by decide))
  ⟨h.1 (by decide),
    h.2.2.2 (sampleUser.set "role" "premium") (h.1 (by decide))
      (storeOf (sampleUser.set "role" "premium")) ⟨⟨[]⟩, ⟨[("uid", "u1")]⟩, none, ⟨[]⟩⟩
      rfl (by decide)⟩

/-! ## The catch clauses -/

theorem restorePasswordTry_no_serverError (sv : Services) (req : Request) (m : String) :
    Effect.sendServerError m ∉ (restorePasswordTry sv req).1 := by
  unfold restorePasswordTry
  cases hemail : req.body.get "email" with
  | none => simp
  | some email =>
    by_cases hne : email = ""
    · simp [hne]
    · cases hre : emailRegex.test email with
      | false => simp [hne, hre]
      | true =>
        cases husr : sv.getUserByEmail (some email) with
        | error e => simp [hne, hre, husr]
        | ok user =>
          cases user with
          | none => simp [hne, hre, husr]
          | some user =>
            cases hmail : sv.sendResetPasswordEmail user
                ("http://localhost:8080/reset-password?token=" ++
                  sv.generateToken ⟨[("email", email)]⟩) with
            | error e => simp [hne, hre, husr, hmail]
            | ok u => simp [hne, hre, husr, hmail]

theorem resetPasswordTry_no_serverError (sv : Services) (req : Request) (m : String) :
    Effect.sendServerError m ∉ (resetPasswordTry sv req).1 := by
  unfold resetPasswordTry
  cases hpw : req.body.get "password" with
  | none => simp
  | some password =>
    by_cases hne : password = ""
    · simp [hne]
    · cases hre : passwordRegex.test password with
      | false => simp [hne, hre]
      | true =>
        cases htok : sv.validateToken (req.body.get "token") with
        | error e => simp [hne, hre, htok]
        | ok decoded =>
          cases decoded with
          | none => simp [hne, hre, htok]
          | some decoded =>
            cases husr : sv.getUserByEmail (decoded.get "email") with
            | error e => simp [hne, hre, htok, husr]
            | ok user =>
              cases user with
              | none => simp [hne, hre, htok, husr]
              | some user =>
                cases hval : sv.isValidPassword password user with
                | error e => simp [hne, hre, htok, husr, hval]
                | ok same =>
                  cases same with
                  | true => simp [hne, hre, htok, husr, hval]
                  | false =>
                    cases hupd : sv.updateUserPassword
                        ((user.set "password" password).get "_id")
                        (user.set "password" password) with
                    | error e => simp [hne, hre, htok, husr, hval, hupd]
                    | ok u => simp [hne, hre, htok, husr, hval, hupd]

/-- C8 does not hold of the code: when the user lookup raises in
`restorePassword`, or the storage update raises in `resetPassword`, the handler
sends no response and ends by throwing (a TypeError on `req.loger`, a
ReferenceError on `decoded`); and no run of either handler ever reaches
`sendServerError`. -/
theorem catch_clause_throws :
    restorePassword failingStore (bodyRequest [("email", "ana@shop.com")]) =
      ⟨[.getUserByEmail (some "ana@shop.com")],
        .threw (.typeError "req.loger is undefined")⟩ ∧
    (resetPassword readOnlyStore
        (bodyRequest [("token", "ana@shop.com"), ("password", "Abcdef1!")])).responses = [] ∧
    (resetPassword readOnlyStore
        (bodyRequest [("token", "ana@shop.com"), ("password", "Abcdef1!")])).outcome =
      .threw (.referenceError "decoded") ∧
    (∀ (sv : Services) (req : Request) (m : String),
      Effect.sendServerError m ∉ (restorePassword sv req).effects ∧
      Effect.sendServerError m ∉ (resetPassword sv req).effects) := by
  refine ⟨by decide, by decide, by decide, ?_⟩
  intro sv req m
  constructor
  · have h := restorePasswordTry_no_serverError sv req m
    unfold restorePassword
    split <;> simp_all
  · have h := resetPasswordTry_no_serverError sv req m
    unfold resetPassword
    split <;> simp_all

/-! ## Logout -/

/-- C9: for every request, with or without `req.user` and whatever cookies the
client sent, the first effect of `logout` is `clearCookie('token')`, and no
effect of `logout` sets a cookie. -/
theorem logout_clears_token_cookie (req : Request) :
    Effect.clearCookie "token" ∈ (logout req).effects ∧
    (logout req).effects.head? = some (.clearCookie "token") ∧
    ∀ e ∈ (logout req).effects, e.isCookieSet = false := by
  unfold logout
  cases req.user with
  | none => simp [Effect.isCookieSet]
  | some user => simp [Effect.isCookieSet]

/-! ## Password complexity -/

theorem resetPassword_passwordUpdate_strong (sv : Services) (req : Request)
    (id : Option String) (stored : Record)
    (h : Effect.updateUserPassword id stored ∈ (resetPassword sv req).effects) :
    ∃ password, passwordRegex.test password = true ∧ stored.get "password" = some password := by
  unfold resetPassword resetPasswordTry at h
  cases hpw : req.body.get "password" with
  | none => simp [hpw] at h
  | some password =>
    by_cases hne : password = ""
    · simp [hpw, hne] at h
    · cases hre : passwordRegex.test password with
      | false => simp [hpw, hne, hre] at h
      | true =>
        cases htok : sv.validateToken (req.body.get "token") with
        | error m => simp [hpw, hne, hre, htok] at h
        | ok decoded =>
          cases decoded with
          | none => simp [hpw, hne, hre, htok] at h
          | some decoded =>
            cases husr : sv.getUserByEmail (decoded.get "email") with
            | error m => simp [hpw, hne, hre, htok, husr] at h
            | ok user =>
              cases user with
              | none => simp [hpw, hne, hre, htok, husr] at h
              | some user =>
                have hstored : stored = user.set "password" password := by
                  cases hval : sv.isValidPassword password user with
                  | error m => simp [hpw, hne, hre, htok, husr, hval] at h
                  | ok same =>
                    cases same with
                    | true => simp [hpw, hne, hre, htok, husr, hval] at h
                    | false =>
                      cases hupd : sv.updateUserPassword
                          ((user.set "password" password).get "_id")
                          (user.set "password" password) with
                      | error m =>
                        simp [hpw, hne, hre, htok, husr, hval, hupd] at h
                        exact h.2
                      | ok u =>
                        simp [hpw, hne, hre, htok, husr, hval, hupd] at h
                        exact h.2
                exact ⟨password, hre, by rw [hstored]; exact Record.get_set_same user _ _⟩

/-- C10: the complexity check of `resetPassword` accepts a string exactly when
it has at least 8 characters, contains a lower-case letter, an upper-case
letter, a digit and one of `@$!%*?&`, and consists only of ASCII letters,
digits and those special characters; and every record `resetPassword` hands to
`updateUserPassword` carries a password that meets that rule. -/
theorem passwordRegex_complexity :
    (∀ p : String, passwordRegex.test p = true ↔ MeetsComplexity p) ∧
    (∀ (sv : Services) (req : Request) (id : Option String) (stored : Record),
      Effect.updateUserPassword id stored ∈ (resetPassword sv req).effects →
        ∃ password, stored.get "password" = some password ∧ MeetsComplexity password) := by
  refine ⟨passwordRegex_test_iff, ?_⟩
  intro sv req id stored h
  obtain ⟨password, hre, hget⟩ := resetPassword_passwordUpdate_strong sv req id stored h
  exact ⟨password, hget, (passwordRegex_test_iff password).mp hre⟩

end SessionsController

